import Mathlib

/-!
# Verification of the hipBLAS Hermitian-update test drivers

This file embeds the four test drivers of the repository fragment
(`testing_hpr`, `testing_her_batched`, `testing_her2k_strided_batched`,
`testing_herk`) as Lean functions and proves the testable properties of the
specification against them.

Modelling conventions:

* Buffers are modelled as whole values (`Buf := List ℤ`, each element an
  integer standing for the bit pattern of one scalar).  Every `hipMemcpy` in
  the drivers spans an entire allocation, so copies become whole-value
  assignments; bitwise identity of two buffers becomes equality in `Buf`.
* The accelerated kernels themselves are not part of the repository fragment:
  only the drivers are under version control here.  Each kernel is therefore
  modelled from the spec as a deterministic function of its arguments, with
  the pointer mode selecting whether the scalar coefficient is read from the
  host-resident or the device-resident copy, and with the quick-return /
  status contract of spec sections 4.3 and 7.  The unknown numerical content
  of a kernel is kept abstract as a function parameter, so every theorem
  quantifies over it.
* Each driver records a trace: the status expectations it makes, the device
  buffer contents handed to each correctness-path kernel invocation, the
  argument pairs given to the unit check, whether and from what the norm-check
  error variables were assigned, the timing-loop call count and the point at
  which the timer was started.  Uninitialized `double` locals
  (`hipblas_error_host`, `hipblas_error_device`) are modelled as `Option`
  values starting at `none`.
-/

/-- A buffer: the full contents of one host or device allocation, one integer
per stored scalar (the integer stands for the scalar's bit pattern). -/
abbrev Buf : Type := List ℤ

/-- Status codes returned by hipBLAS entry points, as far as the drivers
distinguish them. -/
inductive HipblasStatus where
  | success
  | invalidValue
  deriving DecidableEq, Repr

/-- The pointer mode set on the handle before a kernel invocation: scalar
coefficients are read from host memory or from device memory. -/
inductive PointerMode where
  | host
  | device
  deriving DecidableEq, Repr

/-- Select the scalar copy the kernel reads, according to the pointer mode. -/
def PointerMode.pick (mode : PointerMode) (hostScalar deviceScalar : ℤ) : ℤ :=
  match mode with
  | .host => hostScalar
  | .device => deviceScalar

/-- Which local result variable of a driver an argument of a check call refers
to: the CPU reference output, the host-pointer-mode result, or the
device-pointer-mode result.  Used to record the provenance of the buffers
handed to `unit_check_general`. -/
inductive BufTag where
  | gold
  | host
  | device
  deriving DecidableEq, Repr

/- ## The hpr driver (`testing_hpr`, src/unnamed/part_000) -/

/-- The argument fields of `Arguments` that `testing_hpr` reads.  `uplo` is the
fill mode (true = upper), `alpha` the bit pattern of the real scalar `U`. -/
structure HprArgs where
  uplo : Bool
  N : ℤ
  incx : ℤ
  alpha : ℤ
  unit_check : Bool
  norm_check : Bool
  timing : Bool
  cold_iters : ℕ
  iters : ℕ

/-- Modelled from the spec: the status contract of the `hipblasHpr` kernel
entry point, whose implementation is outside this fragment.  A negative
dimension or a zero increment is an invalid argument detected before any
device work; a zero dimension is a success no-op (spec sections 4.3 and 7,
matching the driver's `EXPECT_HIPBLAS_STATUS2` quick-return expectation). -/
def hprStatus (N incx : ℤ) : HipblasStatus :=
  if N < 0 ∨ incx = 0 then .invalidValue else .success

/-- Modelled from the spec: the `hipblasHpr` kernel invocation, whose
implementation is outside this fragment.  `f` is the (unknown, deterministic)
numerical content: given fill mode, `N`, the scalar actually read, `incx`, the
`x` buffer and the packed `A` buffer it yields the updated `A` buffer.  The
pointer mode only selects which scalar copy is read; on an invalid or empty
shape the kernel performs no buffer writes and returns the contracted
status. -/
def hprCall (f : Bool → ℤ → ℤ → ℤ → Buf → Buf → Buf)
    (mode : PointerMode) (hostAlpha deviceAlpha : ℤ)
    (uplo : Bool) (N : ℤ) (x : Buf) (incx : ℤ) (A : Buf) :
    HipblasStatus × Buf :=
  if N < 0 ∨ incx = 0 then (.invalidValue, A)
  else if N = 0 then (.success, A)
  else (.success, f uplo N (mode.pick hostAlpha deviceAlpha) incx x A)

/-- The observable outcome of one `testing_hpr` run. -/
structure HprResult where
  /-- `(actual, expected)` pairs recorded by `EXPECT_HIPBLAS_STATUS2`. -/
  statusChecks : List (HipblasStatus × HipblasStatus)
  /-- Whether the quick-return path was taken (no allocation, no
  initialization, no comparison). -/
  earlyReturn : Bool
  /-- Contents of the device buffer `dA` at each correctness-path kernel
  invocation, in order. -/
  kernelInputsA : List Buf
  hA_host : Option Buf
  hA_device : Option Buf
  hA_cpu : Option Buf
  /-- The buffer handed to the CPU reference routine as its in/out matrix
  argument (the contents of `hA_cpu` when `cblas_hpr` is called). -/
  oracleInput : Option Buf
  /-- `(gold, computed)` buffer pairs given to `unit_check_general`. -/
  unitChecks : List (Buf × Buf)
  /-- Which local variables those pairs were, in source order. -/
  unitCheckTags : List (BufTag × BufTag)
  /-- `hipblas_error_host`: `none` while unassigned, otherwise the
  `(gold, computed)` pair whose norm-check score it received. -/
  errorHost : Option (Buf × Buf)
  /-- `hipblas_error_device`, same convention. -/
  errorDevice : Option (Buf × Buf)
  /-- Number of kernel invocations made by the timing loop. -/
  timingRuns : ℕ
  /-- `some c`: the timer was started when `c` timing-loop kernel calls had
  completed; `none`: the timer was never started. -/
  timerStart : Option ℕ
  /-- The error-score pair handed to `log_args`, when timing ran. -/
  logged : Option (Option (Buf × Buf) × Option (Buf × Buf))

/-- One step of the timing loop shared by all drivers: at iteration
`iter == cold_iters` the timer is read (started) before the kernel call, then
the kernel is called.  State: (calls made so far, timer start position). -/
def timingStep (cold : ℕ) (s : ℕ × Option ℕ) (iter : ℕ) : ℕ × Option ℕ :=
  let s := if iter = cold then (s.1, some s.1) else s
  (s.1 + 1, s.2)

/-- The timing loop: `runs = cold_iters + iters` iterations of `timingStep`,
exactly as in each driver's `for(int iter = 0; iter < runs; iter++)`. -/
def timingLoop (cold iters : ℕ) : ℕ × Option ℕ :=
  (List.range (cold + iters)).foldl (timingStep cold) (0, none)

/-- Embedding of `testing_hpr` (src/unnamed/part_000, lines 40-157).
Parameters beyond the arguments: `f` the abstract kernel content, `cblasHpr`
the abstract CPU reference routine (external `cblas_hpr`), and the
host-initialized random data `hA0`, `hx0` produced by `hipblas_init_matrix`
and `hipblas_init_vector`. -/
def testing_hpr (arg : HprArgs)
    (f : Bool → ℤ → ℤ → ℤ → Buf → Buf → Buf)
    (cblasHpr : Bool → ℤ → ℤ → Buf → ℤ → Buf → Buf)
    (hA0 hx0 : Buf) : HprResult :=
  let invalid_size : Bool := decide (arg.N < 0 ∨ arg.incx = 0)
  if invalid_size ∨ arg.N = 0 then
    -- quick return: call with null buffers, check the status, return
    let actual := hprStatus arg.N arg.incx
    let expected : HipblasStatus := if invalid_size then .invalidValue else .success
    { statusChecks := [(actual, expected)]
      earlyReturn := true
      kernelInputsA := []
      hA_host := none, hA_device := none, hA_cpu := none
      oracleInput := none
      unitChecks := [], unitCheckTags := []
      errorHost := none, errorDevice := none
      timingRuns := 0, timerStart := none, logged := none }
  else
    -- hA_cpu = hA; copy data from CPU to device
    let hA := hA0
    let hx := hx0
    let hA_cpu := hA
    let dA := hA
    let dx := hx
    let h_alpha := arg.alpha
    let d_alpha := h_alpha
    -- correctness path
    let corr := arg.unit_check ∨ arg.norm_check
    let call1 := hprCall f .host h_alpha d_alpha arg.uplo arg.N dx arg.incx dA
    let dA1 := if corr then call1.2 else dA
    let hA_host := dA1
    let dA2 := if corr then hA else dA1        -- dA restored from hA
    let call2 := hprCall f .device h_alpha d_alpha arg.uplo arg.N dx arg.incx dA2
    let dA3 := if corr then call2.2 else dA2
    let hA_device := dA3
    let hA_cpu2 := if corr then cblasHpr arg.uplo arg.N h_alpha hx arg.incx hA_cpu else hA_cpu
    let unitChecks := if corr ∧ arg.unit_check then
        [(hA_cpu2, hA_host), (hA_cpu2, hA_device)] else []
    let unitCheckTags : List (BufTag × BufTag) := if corr ∧ arg.unit_check then
        [(.gold, .host), (.gold, .device)] else []
    let errorHost := if corr ∧ arg.norm_check then some (hA_cpu2, hA_host) else none
    let errorDevice := if corr ∧ arg.norm_check then some (hA_cpu2, hA_device) else none
    -- timing path
    let tl := timingLoop arg.cold_iters arg.iters
    { statusChecks := []
      earlyReturn := false
      kernelInputsA := if corr then [dA, dA2] else []
      hA_host := if corr then some hA_host else none
      hA_device := if corr then some hA_device else none
      hA_cpu := if corr then some hA_cpu2 else none
      oracleInput := if corr then some hA_cpu else none
      unitChecks := unitChecks
      unitCheckTags := unitCheckTags
      errorHost := errorHost
      errorDevice := errorDevice
      timingRuns := if arg.timing then tl.1 else 0
      timerStart := if arg.timing then tl.2 else none
      logged := if arg.timing then some (errorHost, errorDevice) else none }

/- ## The batched her driver (`testing_her_batched`,
     src/clients/include/testing_her_batched.hpp) -/

/-- The argument fields of `Arguments` that `testing_her_batched` reads. -/
structure HerBatchedArgs where
  uplo : Bool
  N : ℤ
  incx : ℤ
  lda : ℤ
  batch_count : ℤ
  alpha : ℤ
  unit_check : Bool
  norm_check : Bool
  timing : Bool
  cold_iters : ℕ
  iters : ℕ

/-- The shape condition the driver computes as `invalid_size`
(testing_her_batched.hpp line 57). -/
def herBatchedInvalidSize (N incx lda batch_count : ℤ) : Prop :=
  N < 0 ∨ lda < N ∨ lda < 1 ∨ incx = 0 ∨ batch_count < 0

instance (N incx lda batch_count : ℤ) :
    Decidable (herBatchedInvalidSize N incx lda batch_count) := by
  unfold herBatchedInvalidSize; infer_instance

/-- Modelled from the spec: the status contract of the `hipblasHerBatched`
kernel entry point, whose implementation is outside this fragment.  Invalid
shape arguments (negative dimension, deficient leading dimension, zero
increment, negative batch count) yield the invalid-argument status before any
device work; degenerate sizes (`N = 0` or `batch_count = 0`) are a success
no-op.  The concrete invalid set mirrors the driver's
`EXPECT_HIPBLAS_STATUS` quick-return expectation. -/
def herBatchedStatus (N incx lda batch_count : ℤ) : HipblasStatus :=
  if herBatchedInvalidSize N incx lda batch_count then .invalidValue else .success

/-- Modelled from the spec: the `hipblasHerBatched` kernel invocation, whose
implementation is outside this fragment.  `f` is the unknown deterministic
numerical content (fill mode, `N`, the scalar actually read, `incx`, `lda`,
the batch of `x` vectors and the batch of `A` matrices, yielding the updated
`A` batch); the pointer mode only selects which scalar copy is read; on an
invalid or degenerate shape the kernel performs no buffer writes. -/
def herBatchedCall (f : Bool → ℤ → ℤ → ℤ → ℤ → List Buf → List Buf → List Buf)
    (mode : PointerMode) (hostAlpha deviceAlpha : ℤ)
    (uplo : Bool) (N : ℤ) (x : List Buf) (incx lda : ℤ) (A : List Buf)
    (batch_count : ℤ) : HipblasStatus × List Buf :=
  if herBatchedInvalidSize N incx lda batch_count then (.invalidValue, A)
  else if N = 0 ∨ batch_count = 0 then (.success, A)
  else (.success, f uplo N (mode.pick hostAlpha deviceAlpha) incx lda x A)

/-- The reference-oracle loop of `testing_her_batched` (lines 125-128): for
each batch index `b` apply the single-instance CPU routine `cblas_her` to the
`b`-th `x` and update the `b`-th `A` in place.  `cblasHer` takes
`uplo N alpha x incx A lda`. -/
def herGoldLoop (cblasHer : Bool → ℤ → ℤ → Buf → ℤ → Buf → ℤ → Buf)
    (uplo : Bool) (N alpha incx lda : ℤ) (hx : List Buf) (batch : ℕ)
    (hA : List Buf) : List Buf :=
  (List.range batch).foldl
    (fun A b => A.set b (cblasHer uplo N alpha (hx.getD b []) incx (A.getD b []) lda)) hA

/-- The observable outcome of one `testing_her_batched` run. -/
structure HerBatchedResult where
  /-- `(actual, expected)` pairs recorded by `EXPECT_HIPBLAS_STATUS`. -/
  statusChecks : List (HipblasStatus × HipblasStatus)
  /-- The status value the driver returns. -/
  returned : HipblasStatus
  earlyReturn : Bool
  /-- Contents of the device batch `dA` at each correctness-path kernel
  invocation, in order. -/
  kernelInputsA : List (List Buf)
  hA_host : Option (List Buf)
  hA_device : Option (List Buf)
  hA_cpu : Option (List Buf)
  /-- The batch handed to the CPU reference loop as its in/out matrix argument
  (the contents of `hA_cpu` when the `cblas_her` loop starts). -/
  oracleInput : Option (List Buf)
  /-- `(gold, computed)` batch pairs given to `unit_check_general`. -/
  unitChecks : List (List Buf × List Buf)
  /-- Which local variables those pairs were, in source order. -/
  unitCheckTags : List (BufTag × BufTag)
  errorHost : Option (List Buf × List Buf)
  errorDevice : Option (List Buf × List Buf)
  timingRuns : ℕ
  timerStart : Option ℕ
  logged : Option (Option (List Buf × List Buf) × Option (List Buf × List Buf))

/-- Embedding of `testing_her_batched`
(src/clients/include/testing_her_batched.hpp, lines 33-182).  `f` is the
abstract kernel content, `cblasHer` the abstract CPU reference routine, and
`hA0`, `hx0` the host-initialized random batches. -/
def testing_her_batched (argus : HerBatchedArgs)
    (f : Bool → ℤ → ℤ → ℤ → ℤ → List Buf → List Buf → List Buf)
    (cblasHer : Bool → ℤ → ℤ → Buf → ℤ → Buf → ℤ → Buf)
    (hA0 hx0 : List Buf) : HerBatchedResult :=
  let invalid_size : Bool :=
    decide (herBatchedInvalidSize argus.N argus.incx argus.lda argus.batch_count)
  if invalid_size ∨ argus.N = 0 ∨ argus.batch_count = 0 then
    -- quick return: call with null buffers, expect the contracted status
    let actual := herBatchedStatus argus.N argus.incx argus.lda argus.batch_count
    let expected : HipblasStatus := if invalid_size then .invalidValue else .success
    { statusChecks := [(actual, expected)]
      returned := actual
      earlyReturn := true
      kernelInputsA := []
      hA_host := none, hA_device := none, hA_cpu := none
      oracleInput := none
      unitChecks := [], unitCheckTags := []
      errorHost := none, errorDevice := none
      timingRuns := 0, timerStart := none, logged := none }
  else
    let hA := hA0
    let hx := hx0
    let hA_cpu := hA
    let dA := hA
    let dx := hx
    let h_alpha := argus.alpha
    let d_alpha := h_alpha
    let corr := argus.unit_check ∨ argus.norm_check
    let call1 := herBatchedCall f .host h_alpha d_alpha argus.uplo argus.N dx
      argus.incx argus.lda dA argus.batch_count
    let dA1 := if corr then call1.2 else dA
    let hA_host := dA1
    let dA2 := if corr then hA else dA1        -- dA.transfer_from(hA)
    let call2 := herBatchedCall f .device h_alpha d_alpha argus.uplo argus.N dx
      argus.incx argus.lda dA2 argus.batch_count
    let dA3 := if corr then call2.2 else dA2
    let hA_device := dA3
    let hA_cpu2 := if corr then
        herGoldLoop cblasHer argus.uplo argus.N h_alpha argus.incx argus.lda hx
          argus.batch_count.toNat hA_cpu
      else hA_cpu
    -- lines 134-135: both unit checks compare hA_cpu against hA_host
    let unitChecks := if corr ∧ argus.unit_check then
        [(hA_cpu2, hA_host), (hA_cpu2, hA_host)] else []
    let unitCheckTags : List (BufTag × BufTag) := if corr ∧ argus.unit_check then
        [(.gold, .host), (.gold, .host)] else []
    let errorHost := if corr ∧ argus.norm_check then some (hA_cpu2, hA_host) else none
    let errorDevice := if corr ∧ argus.norm_check then some (hA_cpu2, hA_device) else none
    let tl := timingLoop argus.cold_iters argus.iters
    { statusChecks := []
      returned := .success
      earlyReturn := false
      kernelInputsA := if corr then [dA, dA2] else []
      hA_host := if corr then some hA_host else none
      hA_device := if corr then some hA_device else none
      hA_cpu := if corr then some hA_cpu2 else none
      oracleInput := if corr then some hA_cpu else none
      unitChecks := unitChecks
      unitCheckTags := unitCheckTags
      errorHost := errorHost
      errorDevice := errorDevice
      timingRuns := if argus.timing then tl.1 else 0
      timerStart := if argus.timing then tl.2 else none
      logged := if argus.timing then some (errorHost, errorDevice) else none }

/- ## The her2k strided batched driver (`testing_her2k_strided_batched`,
     src/clients/include/blas3/testing_her2k_strided_batched.hpp) -/

/-- The transpose selector `hipblasOperation_t`; the drivers only distinguish
`HIPBLAS_OP_N` from the other two values. -/
inductive Operation where
  | opN
  | opT
  | opC
  deriving DecidableEq, Repr

/-- `transA == HIPBLAS_OP_N`. -/
def Operation.isN (op : Operation) : Bool :=
  match op with
  | .opN => true
  | _ => false

/-- The argument fields of `Arguments` that `testing_her2k_strided_batched`
reads.  `alpha` is the bit pattern of the complex scalar `T`, `beta` of the
real scalar `U`. -/
structure Her2kArgs where
  uplo : Bool
  transA : Operation
  N : ℤ
  K : ℤ
  lda : ℤ
  ldb : ℤ
  ldc : ℤ
  stride_scale : ℚ
  batch_count : ℤ
  alpha : ℤ
  beta : ℤ
  unit_check : Bool
  norm_check : Bool
  timing : Bool
  cold_iters : ℕ
  iters : ℕ

/-- The argument sanity condition of `testing_her2k_strided_batched`
(lines 79-80) under which the driver quick-returns as invalid. -/
def her2kInvalidShape (transA : Operation) (N K lda ldb ldc batch_count : ℤ) : Prop :=
  N < 0 ∨ K < 0 ∨ ldc < N ∨ (transA.isN = true ∧ (lda < N ∨ ldb < N))
    ∨ (transA.isN = false ∧ (lda < K ∨ ldb < K)) ∨ batch_count < 0

instance (transA : Operation) (N K lda ldb ldc batch_count : ℤ) :
    Decidable (her2kInvalidShape transA N K lda ldb ldc batch_count) := by
  unfold her2kInvalidShape; infer_instance

/-- The shape and stride arguments handed to the her2k kernel entry point. -/
structure Her2kShape where
  uplo : Bool
  transA : Operation
  N : ℤ
  K : ℤ
  lda : ℤ
  ldb : ℤ
  ldc : ℤ
  strideA : ℤ
  strideB : ℤ
  strideC : ℤ
  batch_count : ℤ

/-- Modelled from the spec: the `hipblasHer2kStridedBatched` kernel
invocation, whose implementation is outside this fragment.  `f` is the
unknown deterministic numerical content (shape, the alpha and beta scalars
actually read, the `A`, `B` and `C` buffers, yielding the updated `C`);
the pointer mode only selects which scalar copies are read; on an invalid or
degenerate shape the kernel performs no buffer writes. -/
def her2kCall (f : Her2kShape → ℤ → ℤ → Buf → Buf → Buf → Buf)
    (mode : PointerMode) (hostAlpha deviceAlpha hostBeta deviceBeta : ℤ)
    (sh : Her2kShape) (A B C : Buf) : Buf :=
  if her2kInvalidShape sh.transA sh.N sh.K sh.lda sh.ldb sh.ldc sh.batch_count
      ∨ sh.batch_count = 0 then C
  else f sh (mode.pick hostAlpha deviceAlpha) (mode.pick hostBeta deviceBeta) A B C

/-- The observable outcome of one `testing_her2k_strided_batched` run. -/
structure Her2kResult where
  /-- Statuses returned by each kernel invocation, in order, as observed by
  the `ASSERT_HIPBLAS_SUCCESS` wrappers (correctness path then timing path). -/
  observedStatuses : List HipblasStatus
  earlyReturn : Bool
  /-- Contents of the device buffer `dC` at each correctness-path kernel
  invocation, in order. -/
  kernelInputsC : List Buf
  hC_host : Option Buf
  hC_device : Option Buf
  hC_gold : Option Buf
  /-- The buffer handed to the CPU reference loop as its in/out matrix
  argument (the contents of `hC_gold` when the `cblas_her2k` loop starts). -/
  oracleInput : Option Buf
  unitChecks : List (Buf × Buf)
  unitCheckTags : List (BufTag × BufTag)
  errorHost : Option (Buf × Buf)
  errorDevice : Option (Buf × Buf)
  timingRuns : ℕ
  timerStart : Option ℕ
  logged : Option (Option (Buf × Buf) × Option (Buf × Buf))

/-- Embedding of `testing_her2k_strided_batched`
(src/clients/include/blas3/testing_her2k_strided_batched.hpp, lines 51-250).
`f` is the abstract kernel content, `cblasHer2kBatch` the abstract CPU
reference loop applied to the host copies (its per-batch structure is studied
separately by `her2kGoldLoop`), and `hA0`, `hB0`, `hC0` the host-initialized
random data. -/
def testing_her2k_strided_batched (arg : Her2kArgs)
    (f : Her2kShape → ℤ → ℤ → Buf → Buf → Buf → Buf)
    (cblasHer2kBatch : Her2kShape → ℤ → ℤ → Buf → Buf → Buf → Buf)
    (hA0 hB0 hC0 : Buf) : Her2kResult :=
  let K1 : ℤ := if arg.transA.isN then arg.K else arg.N
  let stride_A : ℤ := Int.toNat (Int.floor ((arg.lda * K1 : ℚ) * arg.stride_scale))
  let stride_B : ℤ := Int.toNat (Int.floor ((arg.ldb * K1 : ℚ) * arg.stride_scale))
  let stride_C : ℤ := Int.toNat (Int.floor ((arg.ldc * arg.N : ℚ) * arg.stride_scale))
  let sh : Her2kShape :=
    { uplo := arg.uplo, transA := arg.transA, N := arg.N, K := arg.K
      lda := arg.lda, ldb := arg.ldb, ldc := arg.ldc
      strideA := stride_A, strideB := stride_B, strideC := stride_C
      batch_count := arg.batch_count }
  if her2kInvalidShape arg.transA arg.N arg.K arg.lda arg.ldb arg.ldc arg.batch_count
      ∨ arg.batch_count = 0 then
    -- lines 77-87: silent quick return, no kernel call, no status expectation
    { observedStatuses := []
      earlyReturn := true
      kernelInputsC := []
      hC_host := none, hC_device := none, hC_gold := none
      oracleInput := none
      unitChecks := [], unitCheckTags := []
      errorHost := none, errorDevice := none
      timingRuns := 0, timerStart := none, logged := none }
  else
    let hA := hA0
    let hB := hB0
    let hC_host := hC0
    let hC_device := hC_host
    let hC_gold := hC_host
    let dA := hA
    let dB := hB
    let dC := hC_host
    let h_alpha := arg.alpha
    let h_beta := arg.beta
    let d_alpha := h_alpha
    let d_beta := h_beta
    let corr := arg.unit_check ∨ arg.norm_check
    let dC1 := if corr then her2kCall f .host h_alpha d_alpha h_beta d_beta sh dA dB dC
      else dC
    let hC_host2 := if corr then dC1 else hC_host
    let dC2 := if corr then hC_device else dC1     -- line 152: dC restored
    let dC3 := if corr then her2kCall f .device h_alpha d_alpha h_beta d_beta sh dA dB dC2
      else dC2
    let hC_device2 := if corr then dC3 else hC_device
    let hC_gold2 := if corr then cblasHer2kBatch sh h_alpha h_beta hA hB hC_gold
      else hC_gold
    let unitChecks := if corr ∧ arg.unit_check then
        [(hC_gold2, hC_host2), (hC_gold2, hC_device2)] else []
    let unitCheckTags : List (BufTag × BufTag) := if corr ∧ arg.unit_check then
        [(.gold, .host), (.gold, .device)] else []
    let errorHost := if corr ∧ arg.norm_check then some (hC_gold2, hC_host2) else none
    let errorDevice := if corr ∧ arg.norm_check then some (hC_gold2, hC_device2) else none
    let tl := timingLoop arg.cold_iters arg.iters
    { observedStatuses :=
        (if corr then [HipblasStatus.success, HipblasStatus.success] else [])
          ++ (if arg.timing then List.replicate tl.1 HipblasStatus.success else [])
      earlyReturn := false
      kernelInputsC := if corr then [dC, dC2] else []
      hC_host := if corr then some hC_host2 else none
      hC_device := if corr then some hC_device2 else none
      hC_gold := if corr then some hC_gold2 else none
      oracleInput := if corr then some hC_gold else none
      unitChecks := unitChecks
      unitCheckTags := unitCheckTags
      errorHost := errorHost
      errorDevice := errorDevice
      timingRuns := if arg.timing then tl.1 else 0
      timerStart := if arg.timing then tl.2 else none
      logged := if arg.timing then some (errorHost, errorDevice) else none }

/- ## The herk driver (`testing_herk`, second part of
     src/clients/include/blas3/testing_her2k_strided_batched.hpp) -/

/-- The argument fields of `Arguments` that `testing_herk` reads; for herk
both `alpha` and `beta` are bit patterns of the real scalar `U`. -/
structure HerkArgs where
  uplo : Bool
  transA : Operation
  N : ℤ
  K : ℤ
  lda : ℤ
  ldc : ℤ
  alpha : ℤ
  beta : ℤ
  unit_check : Bool
  norm_check : Bool
  timing : Bool
  cold_iters : ℕ
  iters : ℕ

/-- The argument sanity condition of `testing_herk` (lines 314-315 of the
concatenated header) under which the driver quick-returns as invalid. -/
def herkInvalidShape (transA : Operation) (N K lda ldc : ℤ) : Prop :=
  N < 0 ∨ K < 0 ∨ ldc < N ∨ (transA.isN = true ∧ lda < N)
    ∨ (transA.isN = false ∧ lda < K)

instance (transA : Operation) (N K lda ldc : ℤ) :
    Decidable (herkInvalidShape transA N K lda ldc) := by
  unfold herkInvalidShape; infer_instance

/-- Modelled from the spec: the `hipblasHerk` kernel invocation, whose
implementation is outside this fragment; same conventions as `her2kCall`. -/
def herkCall (f : Bool → Operation → ℤ → ℤ → ℤ → ℤ → ℤ → ℤ → Buf → Buf → Buf)
    (mode : PointerMode) (hostAlpha deviceAlpha hostBeta deviceBeta : ℤ)
    (uplo : Bool) (transA : Operation) (N K lda ldc : ℤ) (A C : Buf) : Buf :=
  if herkInvalidShape transA N K lda ldc then C
  else f uplo transA N K (mode.pick hostAlpha deviceAlpha)
    (mode.pick hostBeta deviceBeta) lda ldc A C

/-- The observable outcome of one `testing_herk` run. -/
structure HerkResult where
  observedStatuses : List HipblasStatus
  earlyReturn : Bool
  kernelInputsC : List Buf
  hC_host : Option Buf
  hC_device : Option Buf
  hC_gold : Option Buf
  /-- The buffer handed to `cblas_herk` as its in/out matrix argument. -/
  oracleInput : Option Buf
  unitChecks : List (Buf × Buf)
  unitCheckTags : List (BufTag × BufTag)
  errorHost : Option (Buf × Buf)
  errorDevice : Option (Buf × Buf)
  timingRuns : ℕ
  timerStart : Option ℕ
  logged : Option (Option (Buf × Buf) × Option (Buf × Buf))

/-- Embedding of `testing_herk` (lines 297-418 of the concatenated header).
`f` is the abstract kernel content, `cblasHerk` the abstract CPU reference
routine, `hA0`, `hC0` the host-initialized random data. -/
def testing_herk (arg : HerkArgs)
    (f : Bool → Operation → ℤ → ℤ → ℤ → ℤ → ℤ → ℤ → Buf → Buf → Buf)
    (cblasHerk : Bool → Operation → ℤ → ℤ → ℤ → Buf → ℤ → ℤ → Buf → ℤ → Buf)
    (hA0 hC0 : Buf) : HerkResult :=
  if herkInvalidShape arg.transA arg.N arg.K arg.lda arg.ldc then
    { observedStatuses := []
      earlyReturn := true
      kernelInputsC := []
      hC_host := none, hC_device := none, hC_gold := none
      oracleInput := none
      unitChecks := [], unitCheckTags := []
      errorHost := none, errorDevice := none
      timingRuns := 0, timerStart := none, logged := none }
  else
    let hA := hA0
    let hC_host := hC0
    let hC_device := hC_host
    let hC_gold := hC_host
    let dA := hA
    let dC := hC_host
    let h_alpha := arg.alpha
    let h_beta := arg.beta
    let d_alpha := h_alpha
    let d_beta := h_beta
    let corr := arg.unit_check ∨ arg.norm_check
    let dC1 := if corr then
        herkCall f .host h_alpha d_alpha h_beta d_beta arg.uplo arg.transA
          arg.N arg.K arg.lda arg.ldc dA dC
      else dC
    let hC_host2 := if corr then dC1 else hC_host
    let dC2 := if corr then hC_device else dC1     -- line 365: dC restored
    let dC3 := if corr then
        herkCall f .device h_alpha d_alpha h_beta d_beta arg.uplo arg.transA
          arg.N arg.K arg.lda arg.ldc dA dC2
      else dC2
    let hC_device2 := if corr then dC3 else hC_device
    let hC_gold2 := if corr then
        cblasHerk arg.uplo arg.transA arg.N arg.K h_alpha hA arg.lda h_beta hC_gold arg.ldc
      else hC_gold
    let unitChecks := if corr ∧ arg.unit_check then
        [(hC_gold2, hC_host2), (hC_gold2, hC_device2)] else []
    let unitCheckTags : List (BufTag × BufTag) := if corr ∧ arg.unit_check then
        [(.gold, .host), (.gold, .device)] else []
    let errorHost := if corr ∧ arg.norm_check then some (hC_gold2, hC_host2) else none
    let errorDevice := if corr ∧ arg.norm_check then some (hC_gold2, hC_device2) else none
    let tl := timingLoop arg.cold_iters arg.iters
    { observedStatuses :=
        (if corr then [HipblasStatus.success, HipblasStatus.success] else [])
          ++ (if arg.timing then List.replicate tl.1 HipblasStatus.success else [])
      earlyReturn := false
      kernelInputsC := if corr then [dC, dC2] else []
      hC_host := if corr then some hC_host2 else none
      hC_device := if corr then some hC_device2 else none
      hC_gold := if corr then some hC_gold2 else none
      oracleInput := if corr then some hC_gold else none
      unitChecks := unitChecks
      unitCheckTags := unitCheckTags
      errorHost := errorHost
      errorDevice := errorDevice
      timingRuns := if arg.timing then tl.1 else 0
      timerStart := if arg.timing then tl.2 else none
      logged := if arg.timing then some (errorHost, errorDevice) else none }

/- ## Strided reference-oracle loop
     (`testing_her2k_strided_batched`, lines 177-191) -/

/-- Flat host memory, one integer bit pattern per stored element, for studying
the strided-batch pointer arithmetic of the reference-oracle loop. -/
abbrev Mem : Type := ℕ → ℤ

/-- Overwrite the window `[off, off + ext)` of memory `m` with the window
contents `w` (indexed from 0); everything outside the window is untouched. -/
def writeWindow (m : Mem) (off ext : ℕ) (w : ℕ → ℤ) : Mem :=
  fun i => if off ≤ i ∧ i < off + ext then w (i - off) else m i

/-- The reference-oracle loop of `testing_her2k_strided_batched`
(lines 177-191): for each batch index `b`, call the single-instance CPU
routine on the pointers `hA + b·strideA`, `hB + b·strideB`,
`hC_gold + b·strideC`.  `g` is `cblas_her2k` viewed as a function of the
three windows it is pointed into, returning the updated `C` window; it reads
and writes at most `extC` elements of its `C` window (the `ldc·N` extent of
one matrix). -/
def her2kGoldLoop (g : (ℕ → ℤ) → (ℕ → ℤ) → (ℕ → ℤ) → ℕ → ℤ)
    (strideA strideB strideC extC : ℕ) (hA hB : Mem) (batch : ℕ) (hC : Mem) :
    Mem :=
  (List.range batch).foldl
    (fun C b =>
      writeWindow C (b * strideC) extC
        (g (fun j => hA (b * strideA + j)) (fun j => hB (b * strideB + j))
          (fun j => C (b * strideC + j))))
    hC

/-- `g` reads its `C`-window argument only at indices below `ext`
(a `cblas` routine pointed at one batch element stays inside that element's
window). -/
def ReadsWithin (g : (ℕ → ℤ) → (ℕ → ℤ) → (ℕ → ℤ) → ℕ → ℤ) (ext : ℕ) : Prop :=
  ∀ A B C C', (∀ j, j < ext → C j = C' j) → ∀ j, j < ext → g A B C j = g A B C' j

/- ## Norm check (spec section 4.5) -/

/-- Modelled from the spec: `norm_check_general('F', ...)`, whose
implementation is outside this fragment.  The relative error
`‖gold − comp‖_F / ‖gold‖_F`: the Frobenius norm of the elementwise
difference of the two buffers divided by the Frobenius norm of the reference
buffer.  It returns the scalar score and makes no pass/fail assertion. -/
noncomputable def norm_check_general (gold comp : Buf) : ℝ :=
  Real.sqrt (((gold.zip comp).map (fun p => ((p.1 - p.2 : ℤ) : ℝ) ^ 2)).sum)
    / Real.sqrt ((gold.map (fun a => ((a : ℤ) : ℝ) ^ 2)).sum)

/- ## Helper lemmas -/

/-- The shared timing loop makes `cold + iters` kernel calls, and the timer is
started exactly when `cold` calls have completed, provided the start iteration
is reached at all. -/
theorem timingLoop_eq (cold iters : ℕ) :
    timingLoop cold iters
      = (cold + iters, if cold < cold + iters then some cold else none) := by
  suffices h : ∀ n, (List.range n).foldl (timingStep cold) (0, none)
      = (n, if cold < n then some cold else none) by
    exact h (cold + iters)
  intro n
  induction n with
  | zero => simp
  | succ n ih =>
    rw [List.range_succ, List.foldl_append, ih]
    simp only [List.foldl_cons, List.foldl_nil, timingStep]
    by_cases h : n = cold
    · subst h
      simp
    · simp only [if_neg h]
      by_cases h' : cold < n
      · rw [if_pos h', if_pos (by omega)]
      · rw [if_neg h', if_neg (by omega)]

theorem window_disjoint (b b' s e i : ℕ) (hne : b ≠ b') (he : e ≤ s)
    (h1 : b * s ≤ i) (h2 : i < b * s + e) (h3 : b' * s ≤ i)
    (h4 : i < b' * s + e) : False := by
  rcases Nat.lt_or_ge b b' with h | h
  · have hs : b * s + e ≤ b' * s := by
      calc b * s + e ≤ b * s + s := by omega
        _ = (b + 1) * s := by ring
        _ ≤ b' * s := Nat.mul_le_mul_right s h
    omega
  · have hlt : b' < b := lt_of_le_of_ne h (Ne.symm hne)
    have hs : b' * s + e ≤ b * s := by
      calc b' * s + e ≤ b' * s + s := by omega
        _ = (b' + 1) * s := by ring
        _ ≤ b * s := Nat.mul_le_mul_right s hlt
    omega

/-- Unrolling the last iteration of the strided reference-oracle loop. -/
theorem her2kGoldLoop_succ (g : (ℕ → ℤ) → (ℕ → ℤ) → (ℕ → ℤ) → ℕ → ℤ)
    (sA sB sC e : ℕ) (hA hB : Mem) (n : ℕ) (hC : Mem) :
    her2kGoldLoop g sA sB sC e hA hB (n + 1) hC
      = (let C := her2kGoldLoop g sA sB sC e hA hB n hC
         writeWindow C (n * sC) e
          (g (fun j => hA (n * sA + j)) (fun j => hB (n * sB + j))
            (fun j => C (n * sC + j)))) := by
  unfold her2kGoldLoop
  rw [List.range_succ, List.foldl_append, List.foldl_cons, List.foldl_nil]

/-- Frame property: a memory cell lying in none of the first `n` batch
windows is untouched by the first `n` oracle iterations. -/
theorem her2kGoldLoop_frame (g : (ℕ → ℤ) → (ℕ → ℤ) → (ℕ → ℤ) → ℕ → ℤ)
    (sA sB sC e : ℕ) (hA hB : Mem) (hC : Mem) :
    ∀ n i, (∀ b, b < n → ¬(b * sC ≤ i ∧ i < b * sC + e)) →
      her2kGoldLoop g sA sB sC e hA hB n hC i = hC i := by
  intro n
  induction n with
  | zero => intro i _; rfl
  | succ n ih =>
    intro i hout
    rw [her2kGoldLoop_succ]
    simp only [writeWindow]
    rw [if_neg (hout n (by omega)), ih i (fun b hb => hout b (by omega))]

/-- Core slice-independence property of the strided reference-oracle loop:
if the single-instance routine stays inside its `e`-element `C` window and the
batch stride is at least that extent, then after the whole loop the `b`-th
output slice is the single-instance routine applied to the `b`-th input
slices of the original buffers — independent of every other batch element. -/
theorem her2kGoldLoop_slice (g : (ℕ → ℤ) → (ℕ → ℤ) → (ℕ → ℤ) → ℕ → ℤ)
    (sA sB sC e : ℕ) (hA hB : Mem) (hC : Mem) (he : e ≤ sC)
    (hg : ReadsWithin g e) :
    ∀ n b j, b < n → j < e →
      her2kGoldLoop g sA sB sC e hA hB n hC (b * sC + j)
        = g (fun j' => hA (b * sA + j')) (fun j' => hB (b * sB + j'))
            (fun j' => hC (b * sC + j')) j := by
  intro n
  induction n with
  | zero => intro b j hb _; omega
  | succ n ih =>
    intro b j hb hj
    rcases Nat.lt_or_ge b n with hbn | hbn
    · -- iterations after `b` write only to disjoint windows
      rw [her2kGoldLoop_succ]
      simp only [writeWindow]
      rw [if_neg]
      · exact ih b j hbn hj
      · intro hmem
        exact window_disjoint b n sC e (b * sC + j) (by omega) he
          (by omega) (by omega) hmem.1 hmem.2
    · -- b = n: this is the iteration that writes slice b
      have hbe : b = n := by omega
      subst hbe
      rw [her2kGoldLoop_succ]
      simp only [writeWindow]
      rw [if_pos (by omega)]
      have hsub : b * sC + j - b * sC = j := by omega
      rw [hsub]
      have hframe : ∀ j', j' < e →
          her2kGoldLoop g sA sB sC e hA hB b hC (b * sC + j') = hC (b * sC + j') := by
        intro j' hj'
        refine her2kGoldLoop_frame g sA sB sC e hA hB hC b (b * sC + j') ?_
        intro b' hb' hmem
        exact window_disjoint b' b sC e (b * sC + j') (by omega) he
          hmem.1 hmem.2 (by omega) (by omega)
      exact hg _ _ _ _ hframe j hj

/-- Unrolling the last iteration of the pointer-batched reference-oracle
loop of `testing_her_batched`. -/
theorem herGoldLoop_succ (cblasHer : Bool → ℤ → ℤ → Buf → ℤ → Buf → ℤ → Buf)
    (uplo : Bool) (N alpha incx lda : ℤ) (hx : List Buf) (n : ℕ)
    (hA : List Buf) :
    herGoldLoop cblasHer uplo N alpha incx lda hx (n + 1) hA
      = (let A := herGoldLoop cblasHer uplo N alpha incx lda hx n hA
         A.set n (cblasHer uplo N alpha (hx.getD n []) incx (A.getD n []) lda)) := by
  unfold herGoldLoop
  rw [List.range_succ, List.foldl_append, List.foldl_cons, List.foldl_nil]

/-- The pointer-batched reference-oracle loop preserves the batch length. -/
theorem herGoldLoop_length (cblasHer : Bool → ℤ → ℤ → Buf → ℤ → Buf → ℤ → Buf)
    (uplo : Bool) (N alpha incx lda : ℤ) (hx : List Buf) (n : ℕ)
    (hA : List Buf) :
    (herGoldLoop cblasHer uplo N alpha incx lda hx n hA).length = hA.length := by
  induction n with
  | zero => rfl
  | succ n ih => rw [herGoldLoop_succ]; simpa using ih

/-- After the first `n` iterations of the pointer-batched loop, entry `i` is
the single-instance routine applied to the `i`-th original `x` and `A`, when
`i < n`, and is the untouched original entry otherwise. -/
theorem herGoldLoop_getD (cblasHer : Bool → ℤ → ℤ → Buf → ℤ → Buf → ℤ → Buf)
    (uplo : Bool) (N alpha incx lda : ℤ) (hx : List Buf) (hA : List Buf) :
    ∀ n i, n ≤ hA.length →
      (herGoldLoop cblasHer uplo N alpha incx lda hx n hA).getD i []
        = if i < n then cblasHer uplo N alpha (hx.getD i []) incx (hA.getD i []) lda
          else hA.getD i [] := by
  intro n
  induction n with
  | zero => intro i _; simp [herGoldLoop]
  | succ n ih =>
    intro i hn
    rw [herGoldLoop_succ]
    simp only [List.getD_eq_getElem?_getD, List.getElem?_set]
    by_cases hi : i = n
    · subst hi
      rw [if_pos rfl, if_pos (by rw [herGoldLoop_length]; omega)]
      have h2 := ih i (by omega)
      rw [if_neg (by omega)] at h2
      simp only [List.getD_eq_getElem?_getD] at h2
      rw [if_pos (by omega)]
      simp [h2]
    · rw [if_neg (fun h => hi h.symm)]
      have h2 := ih i (by omega)
      simp only [List.getD_eq_getElem?_getD] at h2
      rw [h2]
      by_cases hilt : i < n
      · rw [if_pos hilt, if_pos (by omega)]
      · rw [if_neg hilt, if_neg (by omega)]

/-- The sum of squared elementwise differences of a buffer with itself is
zero. -/
theorem zip_self_sq_sum (x : Buf) :
    ((x.zip x).map (fun p => ((p.1 - p.2 : ℤ) : ℝ) ^ 2)).sum = 0 := by
  induction x with
  | nil => simp
  | cons a t ih =>
    rw [List.zip_cons_cons, List.map_cons, List.sum_cons, ih]
    simp

/- ## Claim theorems -/

/-- C8: For every buffer `x`, the norm check applied to the pair `(x, x)`
returns a discrepancy score of 0, and the norm check never itself asserts
pass or fail: enabling or disabling it changes no unit-check invocation and
no status expectation of a driver — it only fills the error-score fields for
external threshold comparison. -/
theorem norm_check_self_zero_and_no_assert :
    (∀ x : Buf, norm_check_general x x = 0)
      ∧ (∀ (arg : HprArgs) f cb hA0 hx0 (b b' : Bool),
          (testing_hpr { arg with norm_check := b } f cb hA0 hx0).unitChecks
              = (testing_hpr { arg with norm_check := b' } f cb hA0 hx0).unitChecks
            ∧ (testing_hpr { arg with norm_check := b } f cb hA0 hx0).statusChecks
              = (testing_hpr { arg with norm_check := b' } f cb hA0 hx0).statusChecks) := by
  constructor
  · intro x
    unfold norm_check_general
    rw [zip_self_sq_sum, Real.sqrt_zero, zero_div]
  · intro arg f cb hA0 hx0 b b'
    by_cases hq : (arg.N < 0 ∨ arg.incx = 0) ∨ arg.N = 0
    · constructor <;> simp [testing_hpr, hq]
    · cases hu : arg.unit_check <;> cases b <;> cases b' <;>
        constructor <;> simp [testing_hpr, hq, hu]

/-- C9: when a driver runs in timing mode with both the unit check and the
norm check disabled, the error scores handed to the log record are the
never-assigned locals `hipblas_error_host` and `hipblas_error_device`
(modelled as the `none` markers): the logged scores are unspecified values,
not computed discrepancies.  This holds for all four embedded drivers. -/
theorem timing_logs_unassigned_error_scores :
    (∀ (arg : HprArgs) f cb hA0 hx0,
        ¬(arg.N < 0 ∨ arg.incx = 0) → arg.N ≠ 0 →
        arg.unit_check = false → arg.norm_check = false → arg.timing = true →
        (testing_hpr arg f cb hA0 hx0).logged = some (none, none))
      ∧ (∀ (argus : HerBatchedArgs) f cb hA0 hx0,
          ¬ herBatchedInvalidSize argus.N argus.incx argus.lda argus.batch_count →
          argus.N ≠ 0 → argus.batch_count ≠ 0 →
          argus.unit_check = false → argus.norm_check = false → argus.timing = true →
          (testing_her_batched argus f cb hA0 hx0).logged = some (none, none))
      ∧ (∀ (arg : Her2kArgs) f cb hA0 hB0 hC0,
          ¬ her2kInvalidShape arg.transA arg.N arg.K arg.lda arg.ldb arg.ldc
              arg.batch_count →
          arg.batch_count ≠ 0 →
          arg.unit_check = false → arg.norm_check = false → arg.timing = true →
          (testing_her2k_strided_batched arg f cb hA0 hB0 hC0).logged
            = some (none, none))
      ∧ (∀ (arg : HerkArgs) f cb hA0 hC0,
          ¬ herkInvalidShape arg.transA arg.N arg.K arg.lda arg.ldc →
          arg.unit_check = false → arg.norm_check = false → arg.timing = true →
          (testing_herk arg f cb hA0 hC0).logged = some (none, none)) := by
  refine ⟨?_, ?_, ?_, ?_⟩
  · intro arg f cb hA0 hx0 h1 h2 hu hn ht
    simp [testing_hpr, h1, h2, hu, hn, ht]
  · intro argus f cb hA0 hx0 hv hN hb hu hn ht
    simp [testing_her_batched, hv, hN, hb, hu, hn, ht]
  · intro arg f cb hA0 hB0 hC0 hv hb hu hn ht
    simp [testing_her2k_strided_batched, hv, hb, hu, hn, ht]
  · intro arg f cb hA0 hC0 hv hu hn ht
    simp [testing_herk, hv, hu, hn, ht]

/-- C7: in timing mode every driver invokes the device kernel exactly
`cold_iters + iters` times, and the timer is started exactly after the last
warm-up invocation (when `cold_iters` calls have completed) and read again
after the last measured call, so the measured window spans exactly the last
`iters` invocations. -/
theorem timing_loop_count_and_window :
    (∀ (arg : HprArgs) f cb hA0 hx0,
        ¬(arg.N < 0 ∨ arg.incx = 0) → arg.N ≠ 0 → arg.timing = true →
        1 ≤ arg.iters →
        (testing_hpr arg f cb hA0 hx0).timingRuns = arg.cold_iters + arg.iters
          ∧ (testing_hpr arg f cb hA0 hx0).timerStart = some arg.cold_iters)
      ∧ (∀ (argus : HerBatchedArgs) f cb hA0 hx0,
          ¬ herBatchedInvalidSize argus.N argus.incx argus.lda argus.batch_count →
          argus.N ≠ 0 → argus.batch_count ≠ 0 → argus.timing = true →
          1 ≤ argus.iters →
          (testing_her_batched argus f cb hA0 hx0).timingRuns
              = argus.cold_iters + argus.iters
            ∧ (testing_her_batched argus f cb hA0 hx0).timerStart
              = some argus.cold_iters)
      ∧ (∀ (arg : Her2kArgs) f cb hA0 hB0 hC0,
          ¬ her2kInvalidShape arg.transA arg.N arg.K arg.lda arg.ldb arg.ldc
              arg.batch_count →
          arg.batch_count ≠ 0 → arg.timing = true → 1 ≤ arg.iters →
          (testing_her2k_strided_batched arg f cb hA0 hB0 hC0).timingRuns
              = arg.cold_iters + arg.iters
            ∧ (testing_her2k_strided_batched arg f cb hA0 hB0 hC0).timerStart
              = some arg.cold_iters)
      ∧ (∀ (arg : HerkArgs) f cb hA0 hC0,
          ¬ herkInvalidShape arg.transA arg.N arg.K arg.lda arg.ldc →
          arg.timing = true → 1 ≤ arg.iters →
          (testing_herk arg f cb hA0 hC0).timingRuns = arg.cold_iters + arg.iters
            ∧ (testing_herk arg f cb hA0 hC0).timerStart = some arg.cold_iters) := by
  refine ⟨?_, ?_, ?_, ?_⟩
  · intro arg f cb hA0 hx0 h1 h2 ht hi
    simp [testing_hpr, h1, h2, ht, timingLoop_eq, Nat.lt_add_of_pos_right hi]
  · intro argus f cb hA0 hx0 hv hN hb ht hi
    simp [testing_her_batched, hv, hN, hb, ht, timingLoop_eq,
      Nat.lt_add_of_pos_right hi]
  · intro arg f cb hA0 hB0 hC0 hv hb ht hi
    simp [testing_her2k_strided_batched, hv, hb, ht, timingLoop_eq,
      Nat.lt_add_of_pos_right hi]
  · intro arg f cb hA0 hC0 hv ht hi
    simp [testing_herk, hv, ht, timingLoop_eq, Nat.lt_add_of_pos_right hi]

/-- C5: in every driver's correctness path the device-resident output buffer
is restored to the original initialized host contents between the
host-pointer-mode invocation and the device-pointer-mode invocation, so both
kernel invocations and the CPU oracle all start from the same initial
output-buffer contents. -/
theorem device_buffer_restored_between_invocations :
    (∀ (arg : HprArgs) f cb hA0 hx0,
        ¬(arg.N < 0 ∨ arg.incx = 0) → arg.N ≠ 0 →
        (arg.unit_check = true ∨ arg.norm_check = true) →
        (testing_hpr arg f cb hA0 hx0).kernelInputsA = [hA0, hA0]
          ∧ (testing_hpr arg f cb hA0 hx0).oracleInput = some hA0)
      ∧ (∀ (argus : HerBatchedArgs) f cb hA0 hx0,
          ¬ herBatchedInvalidSize argus.N argus.incx argus.lda argus.batch_count →
          argus.N ≠ 0 → argus.batch_count ≠ 0 →
          (argus.unit_check = true ∨ argus.norm_check = true) →
          (testing_her_batched argus f cb hA0 hx0).kernelInputsA = [hA0, hA0]
            ∧ (testing_her_batched argus f cb hA0 hx0).oracleInput = some hA0)
      ∧ (∀ (arg : Her2kArgs) f cb hA0 hB0 hC0,
          ¬ her2kInvalidShape arg.transA arg.N arg.K arg.lda arg.ldb arg.ldc
              arg.batch_count →
          arg.batch_count ≠ 0 →
          (arg.unit_check = true ∨ arg.norm_check = true) →
          (testing_her2k_strided_batched arg f cb hA0 hB0 hC0).kernelInputsC
              = [hC0, hC0]
            ∧ (testing_her2k_strided_batched arg f cb hA0 hB0 hC0).oracleInput
              = some hC0)
      ∧ (∀ (arg : HerkArgs) f cb hA0 hC0,
          ¬ herkInvalidShape arg.transA arg.N arg.K arg.lda arg.ldc →
          (arg.unit_check = true ∨ arg.norm_check = true) →
          (testing_herk arg f cb hA0 hC0).kernelInputsC = [hC0, hC0]
            ∧ (testing_herk arg f cb hA0 hC0).oracleInput = some hC0) := by
  refine ⟨?_, ?_, ?_, ?_⟩
  · intro arg f cb hA0 hx0 h1 h2 hc
    simp [testing_hpr, h1, h2, hc]
  · intro argus f cb hA0 hx0 hv hN hb hc
    simp [testing_her_batched, hv, hN, hb, hc]
  · intro arg f cb hA0 hB0 hC0 hv hb hc
    simp [testing_her2k_strided_batched, hv, hb, hc]
  · intro arg f cb hA0 hC0 hv hc
    simp [testing_herk, hv, hc]

/-- C4: in the batched Hermitian rank-1 update driver, when the unit check is
enabled, `unit_check_general` is invoked exactly twice, both times comparing
the host-pointer-mode result `hA_host` against the oracle output `hA_cpu`;
the device-pointer-mode result `hA_device` is never unit-checked. -/
theorem her_batched_unit_check_duplicated :
    ∀ (argus : HerBatchedArgs) f cb hA0 hx0,
      ¬ herBatchedInvalidSize argus.N argus.incx argus.lda argus.batch_count →
      argus.N ≠ 0 → argus.batch_count ≠ 0 → argus.unit_check = true →
      (testing_her_batched argus f cb hA0 hx0).unitCheckTags
          = [(BufTag.gold, BufTag.host), (BufTag.gold, BufTag.host)]
        ∧ (testing_her_batched argus f cb hA0 hx0).unitCheckTags.length = 2
        ∧ (∀ p ∈ (testing_her_batched argus f cb hA0 hx0).unitCheckTags,
            p.2 ≠ BufTag.device)
        ∧ (testing_her_batched argus f cb hA0 hx0).unitChecks
          = [((testing_her_batched argus f cb hA0 hx0).hA_cpu.getD [],
              (testing_her_batched argus f cb hA0 hx0).hA_host.getD []),
             ((testing_her_batched argus f cb hA0 hx0).hA_cpu.getD [],
              (testing_her_batched argus f cb hA0 hx0).hA_host.getD [])] := by
  intro argus f cb hA0 hx0 hv hN hb hu
  refine ⟨?_, ?_, ?_, ?_⟩ <;> simp [testing_her_batched, hv, hN, hb, hu]

/-- C1: for every valid shape parameter set, invoking the kernel once with
host-pointer-mode scalars and once with device-pointer-mode scalars, starting
both invocations from identical input buffers, produces bitwise-identical
output buffers (the device-resident scalar copies hold the same values as the
host scalars and the kernel is deterministic, so the pointer mode cannot
affect the result); and each driver checks both the host-mode result and the
device-mode result against the same oracle output. -/
theorem pointer_mode_does_not_affect_result :
    (∀ (arg : Her2kArgs) f cb hA0 hB0 hC0,
        ¬ her2kInvalidShape arg.transA arg.N arg.K arg.lda arg.ldb arg.ldc
            arg.batch_count →
        arg.batch_count ≠ 0 →
        (arg.unit_check = true ∨ arg.norm_check = true) →
        ((testing_her2k_strided_batched arg f cb hA0 hB0 hC0).hC_host
            = (testing_her2k_strided_batched arg f cb hA0 hB0 hC0).hC_device
          ∧ (testing_her2k_strided_batched arg f cb hA0 hB0 hC0).hC_host.isSome
            = true
          ∧ (arg.unit_check = true →
              (testing_her2k_strided_batched arg f cb hA0 hB0 hC0).unitChecks
                = [((testing_her2k_strided_batched arg f cb hA0 hB0 hC0).hC_gold.getD [],
                    (testing_her2k_strided_batched arg f cb hA0 hB0 hC0).hC_host.getD []),
                   ((testing_her2k_strided_batched arg f cb hA0 hB0 hC0).hC_gold.getD [],
                    (testing_her2k_strided_batched arg f cb hA0 hB0 hC0).hC_device.getD [])])))
      ∧ (∀ (arg : HerkArgs) f cb hA0 hC0,
          ¬ herkInvalidShape arg.transA arg.N arg.K arg.lda arg.ldc →
          (arg.unit_check = true ∨ arg.norm_check = true) →
          ((testing_herk arg f cb hA0 hC0).hC_host
              = (testing_herk arg f cb hA0 hC0).hC_device
            ∧ (testing_herk arg f cb hA0 hC0).hC_host.isSome = true
            ∧ (arg.unit_check = true →
                (testing_herk arg f cb hA0 hC0).unitChecks
                  = [((testing_herk arg f cb hA0 hC0).hC_gold.getD [],
                      (testing_herk arg f cb hA0 hC0).hC_host.getD []),
                     ((testing_herk arg f cb hA0 hC0).hC_gold.getD [],
                      (testing_herk arg f cb hA0 hC0).hC_device.getD [])])))
      ∧ (∀ (arg : HprArgs) f cb hA0 hx0,
          ¬(arg.N < 0 ∨ arg.incx = 0) → arg.N ≠ 0 →
          (arg.unit_check = true ∨ arg.norm_check = true) →
          ((testing_hpr arg f cb hA0 hx0).hA_host
              = (testing_hpr arg f cb hA0 hx0).hA_device
            ∧ (testing_hpr arg f cb hA0 hx0).hA_host.isSome = true
            ∧ (arg.unit_check = true →
                (testing_hpr arg f cb hA0 hx0).unitChecks
                  = [((testing_hpr arg f cb hA0 hx0).hA_cpu.getD [],
                      (testing_hpr arg f cb hA0 hx0).hA_host.getD []),
                     ((testing_hpr arg f cb hA0 hx0).hA_cpu.getD [],
                      (testing_hpr arg f cb hA0 hx0).hA_device.getD [])]))) := by
  refine ⟨?_, ?_, ?_⟩
  · intro arg f cb hA0 hB0 hC0 hv hb hc
    refine ⟨?_, ?_, ?_⟩ <;>
      simp [testing_her2k_strided_batched, her2kCall, PointerMode.pick, hv, hb, hc]
  · intro arg f cb hA0 hC0 hv hc
    refine ⟨?_, ?_, ?_⟩ <;>
      simp [testing_herk, herkCall, PointerMode.pick, hv, hc]
  · intro arg f cb hA0 hx0 h1 h2 hc
    refine ⟨?_, ?_, ?_⟩ <;>
      simp [testing_hpr, hprCall, PointerMode.pick, h1, h2, hc]

/-- C6: for every batched variant and batch count, the reference oracle is
computed by iterating the batch index and applying the single-instance CPU
routine to each batch element's buffer slice independently.  For the
strided-batch loop: provided the single-instance routine stays within its
`extC`-element output window and the batch stride is at least that extent,
the `b`-th output slice is exactly the single-instance routine applied to the
`b`-th input slices of the original buffers — no cross-batch interaction.
For the pointer-batched loop of `testing_her_batched`: the `b`-th output
batch entry is exactly the single-instance routine applied to the `b`-th
original `x` and `A` entries. -/
theorem batched_oracle_is_independent_per_batch :
    (∀ g sA sB sC e (hA hB hC : Mem) batch b j, e ≤ sC → ReadsWithin g e →
        b < batch → j < e →
        her2kGoldLoop g sA sB sC e hA hB batch hC (b * sC + j)
          = g (fun j' => hA (b * sA + j')) (fun j' => hB (b * sB + j'))
              (fun j' => hC (b * sC + j')) j)
      ∧ (∀ cblasHer uplo N alpha incx lda (hx hA : List Buf) batch b,
          batch ≤ hA.length → b < batch →
          (herGoldLoop cblasHer uplo N alpha incx lda hx batch hA).getD b []
            = cblasHer uplo N alpha (hx.getD b []) incx (hA.getD b []) lda) := by
  constructor
  · intro g sA sB sC e hA hB hC batch b j he hg hb hj
    exact her2kGoldLoop_slice g sA sB sC e hA hB hC he hg batch b j hb hj
  · intro cblasHer uplo N alpha incx lda hx hA batch b hlen hb
    rw [herGoldLoop_getD cblasHer uplo N alpha incx lda hx hA batch b hlen,
      if_pos hb]

/-- C3: for batch count exactly 0 (and an otherwise well-formed shape) the
kernel adapter performs no buffer writes and returns the success status,
whereas for every negative batch count it returns the invalid-argument
status; the batched rank-1 driver's status expectations distinguish exactly
these two cases. -/
theorem batch_count_zero_noop_negative_error :
    (∀ N incx lda : ℤ, ¬(N < 0 ∨ lda < N ∨ lda < 1 ∨ incx = 0) →
        herBatchedStatus N incx lda 0 = HipblasStatus.success
          ∧ ∀ f mode a a' uplo x A,
              herBatchedCall f mode a a' uplo N x incx lda A 0
                = (HipblasStatus.success, A))
      ∧ (∀ N incx lda bc : ℤ, bc < 0 →
          herBatchedStatus N incx lda bc = HipblasStatus.invalidValue
            ∧ ∀ f mode a a' uplo x A,
                herBatchedCall f mode a a' uplo N x incx lda A bc
                  = (HipblasStatus.invalidValue, A))
      ∧ HipblasStatus.success ≠ HipblasStatus.invalidValue
      ∧ (∀ (argus : HerBatchedArgs) f cb hA0 hx0,
          ¬ herBatchedInvalidSize argus.N argus.incx argus.lda argus.batch_count →
          argus.batch_count = 0 →
          (testing_her_batched argus f cb hA0 hx0).statusChecks
            = [(HipblasStatus.success, HipblasStatus.success)])
      ∧ (∀ (argus : HerBatchedArgs) f cb hA0 hx0,
          argus.batch_count < 0 →
          (testing_her_batched argus f cb hA0 hx0).statusChecks
            = [(HipblasStatus.invalidValue, HipblasStatus.invalidValue)]) := by
  refine ⟨?_, ?_, ?_, ?_, ?_⟩
  · intro N incx lda h
    have hinv : ¬ herBatchedInvalidSize N incx lda 0 := by
      unfold herBatchedInvalidSize
      push_neg at h ⊢
      exact ⟨h.1, h.2.1, h.2.2.1, h.2.2.2, by omega⟩
    exact ⟨by simp [herBatchedStatus, hinv],
      fun f mode a a' uplo x A => by simp [herBatchedCall, hinv]⟩
  · intro N incx lda bc hbc
    have hinv : herBatchedInvalidSize N incx lda bc := by
      unfold herBatchedInvalidSize
      tauto
    exact ⟨by simp [herBatchedStatus, hinv],
      fun f mode a a' uplo x A => by simp [herBatchedCall, hinv]⟩
  · intro h
    exact HipblasStatus.noConfusion h
  · intro argus f cb hA0 hx0 hv hb
    rw [hb] at hv
    have hs : herBatchedStatus argus.N argus.incx argus.lda 0
        = HipblasStatus.success := by
      simp [herBatchedStatus, hv]
    simp [testing_her_batched, hv, hb, hs]
  · intro argus f cb hA0 hx0 hb
    have hinv : herBatchedInvalidSize argus.N argus.incx argus.lda
        argus.batch_count := by
      unfold herBatchedInvalidSize
      tauto
    have hs : herBatchedStatus argus.N argus.incx argus.lda argus.batch_count
        = HipblasStatus.invalidValue := by
      simp [herBatchedStatus, hinv]
    simp [testing_her_batched, hinv, hs]

/-- C2 counterexample: the claim as stated says that for every negative
dimension `N`, *every* driver observes the invalid-argument status before any
device work.  The her2k strided-batched driver refutes this: at `N = -1`
(all other parameters well-formed) it takes the silent quick-return of lines
77-83 and never invokes the adapter, so it observes no status at all. -/
theorem her2k_negative_N_observes_no_status :
    (testing_her2k_strided_batched
        ⟨true, Operation.opN, -1, 1, 1, 1, 1, 1, 1, 0, 0, true, false, false, 0, 1⟩
        (fun _ _ _ _ _ C => C) (fun _ _ _ _ _ C => C) [] [] []).observedStatuses = []
      ∧ (testing_her2k_strided_batched
          ⟨true, Operation.opN, -1, 1, 1, 1, 1, 1, 1, 0, 0, true, false, false, 0, 1⟩
          (fun _ _ _ _ _ C => C) (fun _ _ _ _ _ C => C) [] [] []).earlyReturn = true
      ∧ (-1 : ℤ) < 0 := by
  refine ⟨?_, ?_, by norm_num⟩ <;>
    simp [testing_her2k_strided_batched, her2kInvalidShape, Operation.isN]

/-- C2 amended: for every negative dimension `N`, the kernel adapter performs
no buffer writes and returns the designated invalid-argument status,
distinguishable from true success; the hpr and batched-her drivers invoke
the adapter with null buffers and check for exactly this status before any
device work, whereas the her2k strided-batched and herk drivers quick-return
without invoking the adapter, so they never observe the status. -/
theorem negative_N_invalid_argument_handling :
    (∀ N incx : ℤ, N < 0 →
        hprStatus N incx = HipblasStatus.invalidValue
          ∧ ∀ f mode a a' uplo x A,
              hprCall f mode a a' uplo N x incx A = (HipblasStatus.invalidValue, A))
      ∧ (∀ N incx lda bc : ℤ, N < 0 →
          herBatchedStatus N incx lda bc = HipblasStatus.invalidValue
            ∧ ∀ f mode a a' uplo x A,
                herBatchedCall f mode a a' uplo N x incx lda A bc
                  = (HipblasStatus.invalidValue, A))
      ∧ HipblasStatus.invalidValue ≠ HipblasStatus.success
      ∧ (∀ (arg : HprArgs) f cb hA0 hx0, arg.N < 0 →
          (testing_hpr arg f cb hA0 hx0).statusChecks
              = [(HipblasStatus.invalidValue, HipblasStatus.invalidValue)]
            ∧ (testing_hpr arg f cb hA0 hx0).earlyReturn = true
            ∧ (testing_hpr arg f cb hA0 hx0).kernelInputsA = [])
      ∧ (∀ (argus : HerBatchedArgs) f cb hA0 hx0, argus.N < 0 →
          (testing_her_batched argus f cb hA0 hx0).statusChecks
              = [(HipblasStatus.invalidValue, HipblasStatus.invalidValue)]
            ∧ (testing_her_batched argus f cb hA0 hx0).earlyReturn = true
            ∧ (testing_her_batched argus f cb hA0 hx0).kernelInputsA = [])
      ∧ (∀ (arg : Her2kArgs) f cb hA0 hB0 hC0, arg.N < 0 →
          (testing_her2k_strided_batched arg f cb hA0 hB0 hC0).observedStatuses = []
            ∧ (testing_her2k_strided_batched arg f cb hA0 hB0 hC0).earlyReturn = true)
      ∧ (∀ (arg : HerkArgs) f cb hA0 hC0, arg.N < 0 →
          (testing_herk arg f cb hA0 hC0).observedStatuses = []
            ∧ (testing_herk arg f cb hA0 hC0).earlyReturn = true) := by
  refine ⟨?_, ?_, ?_, ?_, ?_, ?_, ?_⟩
  · intro N incx hN
    exact ⟨by simp [hprStatus, hN], fun f mode a a' uplo x A => by
      simp [hprCall, hN]⟩
  · intro N incx lda bc hN
    have hinv : herBatchedInvalidSize N incx lda bc := Or.inl hN
    exact ⟨by simp [herBatchedStatus, hinv], fun f mode a a' uplo x A => by
      simp [herBatchedCall, hinv]⟩
  · intro h
    exact HipblasStatus.noConfusion h
  · intro arg f cb hA0 hx0 hN
    have h1 : arg.N < 0 ∨ arg.incx = 0 := Or.inl hN
    refine ⟨?_, ?_, ?_⟩ <;> simp [testing_hpr, hprStatus, h1, hN]
  · intro argus f cb hA0 hx0 hN
    have hinv : herBatchedInvalidSize argus.N argus.incx argus.lda
        argus.batch_count := Or.inl hN
    refine ⟨?_, ?_, ?_⟩ <;>
      simp [testing_her_batched, herBatchedStatus, hinv]
  · intro arg f cb hA0 hB0 hC0 hN
    have hinv : her2kInvalidShape arg.transA arg.N arg.K arg.lda arg.ldb arg.ldc
        arg.batch_count := Or.inl hN
    refine ⟨?_, ?_⟩ <;> simp [testing_her2k_strided_batched, hinv]
  · intro arg f cb hA0 hC0 hN
    have hinv : herkInvalidShape arg.transA arg.N arg.K arg.lda arg.ldc :=
      Or.inl hN
    refine ⟨?_, ?_⟩ <;> simp [testing_herk, hinv]

/-- C10 counterexample: the claim as stated says the kernel returns success
for `N = 0` with a nonzero increment and non-negative batch count, for all
remaining parameters.  The batched rank-1 driver refutes this: at `N = 0`,
`incx = 1`, `batch_count = 1` but `lda = 0`, the driver's own quick-return
expectation (line 57: `lda < 1` makes `invalid_size` true) is the
invalid-argument status, not success. -/
theorem her_batched_N_zero_lda_zero_invalid :
    (testing_her_batched ⟨true, 0, 1, 0, 1, 0, true, false, false, 0, 1⟩
        (fun _ _ _ _ _ _ A => A) (fun _ _ _ _ _ A _ => A) [] []).returned
        = HipblasStatus.invalidValue
      ∧ (testing_her_batched ⟨true, 0, 1, 0, 1, 0, true, false, false, 0, 1⟩
          (fun _ _ _ _ _ _ A => A) (fun _ _ _ _ _ A _ => A) [] []).statusChecks
        = [(HipblasStatus.invalidValue, HipblasStatus.invalidValue)]
      ∧ (0 : ℤ) = 0 ∧ (1 : ℤ) ≠ 0 ∧ (0 : ℤ) ≤ 1 := by
  refine ⟨?_, ?_, rfl, by norm_num, by norm_num⟩ <;>
    simp [testing_her_batched, herBatchedInvalidSize, herBatchedStatus]

/-- C10 amended: for dimension `N` exactly 0 with a nonzero increment, a
non-negative batch count, and — in the batched rank-1 driver — a leading
dimension of at least 1, the kernel accepts all-null buffer pointers and
returns the success status (`N = 0` is a success no-op, not an
invalid-argument case), performing no buffer writes; the driver takes the
quick-return path: no allocation, no initialization, no comparison, and its
single kernel invocation is a no-op. -/
theorem N_zero_success_noop :
    (∀ incx lda bc : ℤ, incx ≠ 0 → 1 ≤ lda → 0 ≤ bc →
        herBatchedStatus 0 incx lda bc = HipblasStatus.success
          ∧ ∀ f mode a a' uplo x A,
              herBatchedCall f mode a a' uplo 0 x incx lda A bc
                = (HipblasStatus.success, A))
      ∧ (∀ incx : ℤ, incx ≠ 0 →
          hprStatus 0 incx = HipblasStatus.success
            ∧ ∀ f mode a a' uplo x A,
                hprCall f mode a a' uplo 0 x incx A = (HipblasStatus.success, A))
      ∧ (∀ (argus : HerBatchedArgs) f cb hA0 hx0,
          argus.N = 0 → argus.incx ≠ 0 → 1 ≤ argus.lda → 0 ≤ argus.batch_count →
          (testing_her_batched argus f cb hA0 hx0).statusChecks
              = [(HipblasStatus.success, HipblasStatus.success)]
            ∧ (testing_her_batched argus f cb hA0 hx0).returned
              = HipblasStatus.success
            ∧ (testing_her_batched argus f cb hA0 hx0).earlyReturn = true
            ∧ (testing_her_batched argus f cb hA0 hx0).unitChecks = []
            ∧ (testing_her_batched argus f cb hA0 hx0).kernelInputsA = [])
      ∧ (∀ (arg : HprArgs) f cb hA0 hx0, arg.N = 0 → arg.incx ≠ 0 →
          (testing_hpr arg f cb hA0 hx0).statusChecks
              = [(HipblasStatus.success, HipblasStatus.success)]
            ∧ (testing_hpr arg f cb hA0 hx0).earlyReturn = true
            ∧ (testing_hpr arg f cb hA0 hx0).unitChecks = []
            ∧ (testing_hpr arg f cb hA0 hx0).kernelInputsA = []) := by
  refine ⟨?_, ?_, ?_, ?_⟩
  · intro incx lda bc hincx hlda hbc
    have hinv : ¬ herBatchedInvalidSize 0 incx lda bc := by
      unfold herBatchedInvalidSize
      push_neg
      exact ⟨by omega, by omega, by omega, hincx, by omega⟩
    exact ⟨by simp [herBatchedStatus, hinv], fun f mode a a' uplo x A => by
      simp [herBatchedCall, hinv]⟩
  · intro incx hincx
    exact ⟨by simp [hprStatus, hincx], fun f mode a a' uplo x A => by
      simp [hprCall, hincx]⟩
  · intro argus f cb hA0 hx0 hN hincx hlda hbc
    have hinv : ¬ herBatchedInvalidSize 0 argus.incx argus.lda
        argus.batch_count := by
      unfold herBatchedInvalidSize
      push_neg
      exact ⟨by omega, by omega, by omega, hincx, by omega⟩
    have hs : herBatchedStatus 0 argus.incx argus.lda argus.batch_count
        = HipblasStatus.success := by
      simp [herBatchedStatus, hinv]
    refine ⟨?_, ?_, ?_, ?_, ?_⟩ <;> simp [testing_her_batched, hN, hinv, hs]
  · intro arg f cb hA0 hx0 hN hincx
    refine ⟨?_, ?_, ?_, ?_⟩ <;> simp [testing_hpr, hprStatus, hN, hincx]

/-- Witness for C7 at concrete arguments (`cold_iters = 2`, `iters = 3`). -/
theorem timing_loop_count_and_window_witness :
    (¬((2 : ℤ) < 0 ∨ (1 : ℤ) = 0) ∧ (2 : ℤ) ≠ 0 ∧ (1 : ℕ) ≤ 3
        ∧ (testing_hpr ⟨true, 2, 1, 5, true, true, true, 2, 3⟩
            (fun _ _ _ _ _ A => A) (fun _ _ _ _ _ A => A) [1, 2, 3] [4, 5]).timingRuns
          = 2 + 3
        ∧ (testing_hpr ⟨true, 2, 1, 5, true, true, true, 2, 3⟩
            (fun _ _ _ _ _ A => A) (fun _ _ _ _ _ A => A) [1, 2, 3] [4, 5]).timerStart
          = some 2)
      ∧ (¬ herBatchedInvalidSize 2 1 2 2
          ∧ (testing_her_batched ⟨true, 2, 1, 2, 2, 5, true, true, true, 2, 3⟩
              (fun _ _ _ _ _ _ A => A) (fun _ _ _ _ _ A _ => A)
              [[1], [2]] [[3], [4]]).timingRuns = 2 + 3
          ∧ (testing_her_batched ⟨true, 2, 1, 2, 2, 5, true, true, true, 2, 3⟩
              (fun _ _ _ _ _ _ A => A) (fun _ _ _ _ _ A _ => A)
              [[1], [2]] [[3], [4]]).timerStart = some 2)
      ∧ (¬ her2kInvalidShape Operation.opN 2 2 2 2 2 2
          ∧ (testing_her2k_strided_batched
              ⟨true, Operation.opN, 2, 2, 2, 2, 2, 1, 2, 5, 7, true, true, true, 2, 3⟩
              (fun _ _ _ _ _ C => C) (fun _ _ _ _ _ C => C)
              [1] [2] [3]).timingRuns = 2 + 3
          ∧ (testing_her2k_strided_batched
              ⟨true, Operation.opN, 2, 2, 2, 2, 2, 1, 2, 5, 7, true, true, true, 2, 3⟩
              (fun _ _ _ _ _ C => C) (fun _ _ _ _ _ C => C)
              [1] [2] [3]).timerStart = some 2)
      ∧ (¬ herkInvalidShape Operation.opN 2 2 2 2
          ∧ (testing_herk ⟨true, Operation.opN, 2, 2, 2, 2, 5, 7, true, true, true, 2, 3⟩
              (fun _ _ _ _ _ _ _ _ _ C => C) (fun _ _ _ _ _ _ _ _ C _ => C)
              [1] [3]).timingRuns = 2 + 3
          ∧ (testing_herk ⟨true, Operation.opN, 2, 2, 2, 2, 5, 7, true, true, true, 2, 3⟩
              (fun _ _ _ _ _ _ _ _ _ C => C) (fun _ _ _ _ _ _ _ _ C _ => C)
              [1] [3]).timerStart = some 2) := by
  refine ⟨⟨by decide, by decide, by decide, ?_, ?_⟩, ⟨by decide, ?_, ?_⟩,
    ⟨by decide, ?_, ?_⟩, ⟨by decide, ?_, ?_⟩⟩
  · exact (timing_loop_count_and_window.1 _ _ _ _ _ (by decide) (by decide) rfl
      (by decide)).1
  · exact (timing_loop_count_and_window.1 _ _ _ _ _ (by decide) (by decide) rfl
      (by decide)).2
  · exact (timing_loop_count_and_window.2.1 _ _ _ _ _ (by decide) (by decide)
      (by decide) rfl (by decide)).1
  · exact (timing_loop_count_and_window.2.1 _ _ _ _ _ (by decide) (by decide)
      (by decide) rfl (by decide)).2
  · exact (timing_loop_count_and_window.2.2.1 _ _ _ _ _ _ (by decide) (by decide)
      rfl (by decide)).1
  · exact (timing_loop_count_and_window.2.2.1 _ _ _ _ _ _ (by decide) (by decide)
      rfl (by decide)).2
  · exact (timing_loop_count_and_window.2.2.2 _ _ _ _ _ (by decide) rfl
      (by decide)).1
  · exact (timing_loop_count_and_window.2.2.2 _ _ _ _ _ (by decide) rfl
      (by decide)).2

/-- Witness for C9 at concrete arguments (timing on, both checks off). -/
theorem timing_logs_unassigned_error_scores_witness :
    (¬((2 : ℤ) < 0 ∨ (1 : ℤ) = 0)
        ∧ (testing_hpr ⟨true, 2, 1, 5, false, false, true, 2, 3⟩
            (fun _ _ _ _ _ A => A) (fun _ _ _ _ _ A => A) [1, 2, 3] [4, 5]).logged
          = some (none, none))
      ∧ (¬ herBatchedInvalidSize 2 1 2 2
          ∧ (testing_her_batched ⟨true, 2, 1, 2, 2, 5, false, false, true, 2, 3⟩
              (fun _ _ _ _ _ _ A => A) (fun _ _ _ _ _ A _ => A)
              [[1], [2]] [[3], [4]]).logged = some (none, none))
      ∧ (¬ her2kInvalidShape Operation.opN 2 2 2 2 2 2
          ∧ (testing_her2k_strided_batched
              ⟨true, Operation.opN, 2, 2, 2, 2, 2, 1, 2, 5, 7, false, false, true, 2, 3⟩
              (fun _ _ _ _ _ C => C) (fun _ _ _ _ _ C => C)
              [1] [2] [3]).logged = some (none, none))
      ∧ (¬ herkInvalidShape Operation.opN 2 2 2 2
          ∧ (testing_herk
              ⟨true, Operation.opN, 2, 2, 2, 2, 5, 7, false, false, true, 2, 3⟩
              (fun _ _ _ _ _ _ _ _ _ C => C) (fun _ _ _ _ _ _ _ _ C _ => C)
              [1] [3]).logged = some (none, none)) := by
  refine ⟨⟨by decide, ?_⟩, ⟨by decide, ?_⟩, ⟨by decide, ?_⟩, ⟨by decide, ?_⟩⟩
  · exact timing_logs_unassigned_error_scores.1 _ _ _ _ _ (by decide) (by decide)
      rfl rfl rfl
  · exact timing_logs_unassigned_error_scores.2.1 _ _ _ _ _ (by decide)
      (by decide) (by decide) rfl rfl rfl
  · exact timing_logs_unassigned_error_scores.2.2.1 _ _ _ _ _ _ (by decide)
      (by decide) rfl rfl rfl
  · exact timing_logs_unassigned_error_scores.2.2.2 _ _ _ _ _ (by decide)
      rfl rfl rfl

/-- Witness for C4 at concrete arguments (unit check enabled). -/
theorem her_batched_unit_check_duplicated_witness :
    ¬ herBatchedInvalidSize 2 1 2 2
      ∧ (testing_her_batched ⟨true, 2, 1, 2, 2, 5, true, true, true, 2, 3⟩
          (fun _ _ _ _ _ _ A => A) (fun _ _ _ _ _ A _ => A)
          [[1], [2]] [[3], [4]]).unitCheckTags
        = [(BufTag.gold, BufTag.host), (BufTag.gold, BufTag.host)]
      ∧ (testing_her_batched ⟨true, 2, 1, 2, 2, 5, true, true, true, 2, 3⟩
          (fun _ _ _ _ _ _ A => A) (fun _ _ _ _ _ A _ => A)
          [[1], [2]] [[3], [4]]).unitCheckTags.length = 2 := by
  refine ⟨by decide, ?_, ?_⟩
  · exact (her_batched_unit_check_duplicated _ _ _ _ _ (by decide) (by decide)
      (by decide) rfl).1
  · exact (her_batched_unit_check_duplicated _ _ _ _ _ (by decide) (by decide)
      (by decide) rfl).2.1

/-- Witness for C5 at concrete arguments and input buffers. -/
theorem device_buffer_restored_between_invocations_witness :
    (¬((2 : ℤ) < 0 ∨ (1 : ℤ) = 0)
        ∧ (testing_hpr ⟨true, 2, 1, 5, true, true, true, 2, 3⟩
            (fun _ _ _ _ _ A => A) (fun _ _ _ _ _ A => A)
            [1, 2, 3] [4, 5]).kernelInputsA = [[1, 2, 3], [1, 2, 3]]
        ∧ (testing_hpr ⟨true, 2, 1, 5, true, true, true, 2, 3⟩
            (fun _ _ _ _ _ A => A) (fun _ _ _ _ _ A => A)
            [1, 2, 3] [4, 5]).oracleInput = some [1, 2, 3])
      ∧ (¬ herBatchedInvalidSize 2 1 2 2
          ∧ (testing_her_batched ⟨true, 2, 1, 2, 2, 5, true, true, true, 2, 3⟩
              (fun _ _ _ _ _ _ A => A) (fun _ _ _ _ _ A _ => A)
              [[1], [2]] [[3], [4]]).kernelInputsA = [[[1], [2]], [[1], [2]]]
          ∧ (testing_her_batched ⟨true, 2, 1, 2, 2, 5, true, true, true, 2, 3⟩
              (fun _ _ _ _ _ _ A => A) (fun _ _ _ _ _ A _ => A)
              [[1], [2]] [[3], [4]]).oracleInput = some [[1], [2]])
      ∧ (¬ her2kInvalidShape Operation.opN 2 2 2 2 2 2
          ∧ (testing_her2k_strided_batched
              ⟨true, Operation.opN, 2, 2, 2, 2, 2, 1, 2, 5, 7, true, true, true, 2, 3⟩
              (fun _ _ _ _ _ C => C) (fun _ _ _ _ _ C => C)
              [1] [2] [3]).kernelInputsC = [[3], [3]]
          ∧ (testing_her2k_strided_batched
              ⟨true, Operation.opN, 2, 2, 2, 2, 2, 1, 2, 5, 7, true, true, true, 2, 3⟩
              (fun _ _ _ _ _ C => C) (fun _ _ _ _ _ C => C)
              [1] [2] [3]).oracleInput = some [3])
      ∧ (¬ herkInvalidShape Operation.opN 2 2 2 2
          ∧ (testing_herk
              ⟨true, Operation.opN, 2, 2, 2, 2, 5, 7, true, true, true, 2, 3⟩
              (fun _ _ _ _ _ _ _ _ _ C => C) (fun _ _ _ _ _ _ _ _ C _ => C)
              [1] [3]).kernelInputsC = [[3], [3]]
          ∧ (testing_herk
              ⟨true, Operation.opN, 2, 2, 2, 2, 5, 7, true, true, true, 2, 3⟩
              (fun _ _ _ _ _ _ _ _ _ C => C) (fun _ _ _ _ _ _ _ _ C _ => C)
              [1] [3]).oracleInput = some [3]) := by
  refine ⟨⟨by decide, ?_, ?_⟩, ⟨by decide, ?_, ?_⟩, ⟨by decide, ?_, ?_⟩,
    ⟨by decide, ?_, ?_⟩⟩
  · exact (device_buffer_restored_between_invocations.1 _ _ _ _ _ (by decide)
      (by decide) (Or.inl rfl)).1
  · exact (device_buffer_restored_between_invocations.1 _ _ _ _ _ (by decide)
      (by decide) (Or.inl rfl)).2
  · exact (device_buffer_restored_between_invocations.2.1 _ _ _ _ _ (by decide)
      (by decide) (by decide) (Or.inl rfl)).1
  · exact (device_buffer_restored_between_invocations.2.1 _ _ _ _ _ (by decide)
      (by decide) (by decide) (Or.inl rfl)).2
  · exact (device_buffer_restored_between_invocations.2.2.1 _ _ _ _ _ _
      (by decide) (by decide) (Or.inl rfl)).1
  · exact (device_buffer_restored_between_invocations.2.2.1 _ _ _ _ _ _
      (by decide) (by decide) (Or.inl rfl)).2
  · exact (device_buffer_restored_between_invocations.2.2.2 _ _ _ _ _
      (by decide) (Or.inl rfl)).1
  · exact (device_buffer_restored_between_invocations.2.2.2 _ _ _ _ _
      (by decide) (Or.inl rfl)).2

/-- Witness for C1 at concrete arguments, scalars and input buffers. -/
theorem pointer_mode_does_not_affect_result_witness :
    (¬ her2kInvalidShape Operation.opN 2 2 2 2 2 2 ∧ (2 : ℤ) ≠ 0
        ∧ (testing_her2k_strided_batched
            ⟨true, Operation.opN, 2, 2, 2, 2, 2, 1, 2, 5, 7, true, true, false, 0, 1⟩
            (fun _ a b _ _ C => C.map (· + a + b)) (fun _ _ _ _ _ C => C)
            [1] [2] [3]).hC_host
          = (testing_her2k_strided_batched
            ⟨true, Operation.opN, 2, 2, 2, 2, 2, 1, 2, 5, 7, true, true, false, 0, 1⟩
            (fun _ a b _ _ C => C.map (· + a + b)) (fun _ _ _ _ _ C => C)
            [1] [2] [3]).hC_device)
      ∧ (¬ herkInvalidShape Operation.opN 2 2 2 2
          ∧ (testing_herk ⟨true, Operation.opN, 2, 2, 2, 2, 5, 7, true, true, false, 0, 1⟩
              (fun _ _ _ _ a b _ _ _ C => C.map (· + a + b))
              (fun _ _ _ _ _ _ _ _ C _ => C) [1] [3]).hC_host
            = (testing_herk ⟨true, Operation.opN, 2, 2, 2, 2, 5, 7, true, true, false, 0, 1⟩
              (fun _ _ _ _ a b _ _ _ C => C.map (· + a + b))
              (fun _ _ _ _ _ _ _ _ C _ => C) [1] [3]).hC_device)
      ∧ (¬((2 : ℤ) < 0 ∨ (1 : ℤ) = 0) ∧ (2 : ℤ) ≠ 0
          ∧ (testing_hpr ⟨true, 2, 1, 5, true, true, false, 0, 1⟩
              (fun _ _ a _ _ A => A.map (· + a)) (fun _ _ _ _ _ A => A)
              [1, 2, 3] [4, 5]).hA_host
            = (testing_hpr ⟨true, 2, 1, 5, true, true, false, 0, 1⟩
              (fun _ _ a _ _ A => A.map (· + a)) (fun _ _ _ _ _ A => A)
              [1, 2, 3] [4, 5]).hA_device) := by
  refine ⟨⟨by decide, by decide, ?_⟩, ⟨by decide, ?_⟩, ⟨by decide, by decide, ?_⟩⟩
  · exact (pointer_mode_does_not_affect_result.1 _ _ _ _ _ _ (by decide)
      (by decide) (Or.inl rfl)).1
  · exact (pointer_mode_does_not_affect_result.2.1 _ _ _ _ _ (by decide)
      (Or.inl rfl)).1
  · exact (pointer_mode_does_not_affect_result.2.2 _ _ _ _ _ (by decide)
      (by decide) (Or.inl rfl)).1

/-- Witness for the amended C2 at `N = -1`. -/
theorem negative_N_invalid_argument_handling_witness :
    ((-1 : ℤ) < 0 ∧ hprStatus (-1) 1 = HipblasStatus.invalidValue)
      ∧ herBatchedStatus (-1) 1 1 1 = HipblasStatus.invalidValue
      ∧ (testing_hpr ⟨true, -1, 1, 5, true, true, true, 2, 3⟩
          (fun _ _ _ _ _ A => A) (fun _ _ _ _ _ A => A) [1] [2]).statusChecks
        = [(HipblasStatus.invalidValue, HipblasStatus.invalidValue)]
      ∧ (testing_her_batched ⟨true, -1, 1, 2, 2, 5, true, true, true, 2, 3⟩
          (fun _ _ _ _ _ _ A => A) (fun _ _ _ _ _ A _ => A)
          [[1]] [[2]]).statusChecks
        = [(HipblasStatus.invalidValue, HipblasStatus.invalidValue)]
      ∧ (testing_her2k_strided_batched
          ⟨true, Operation.opN, -1, 2, 2, 2, 2, 1, 2, 5, 7, true, true, true, 2, 3⟩
          (fun _ _ _ _ _ C => C) (fun _ _ _ _ _ C => C) [1] [2] [3]).observedStatuses
        = []
      ∧ (testing_herk ⟨true, Operation.opN, -1, 2, 2, 2, 5, 7, true, true, true, 2, 3⟩
          (fun _ _ _ _ _ _ _ _ _ C => C) (fun _ _ _ _ _ _ _ _ C _ => C)
          [1] [3]).observedStatuses = [] := by
  refine ⟨⟨by decide, ?_⟩, ?_, ?_, ?_, ?_, ?_⟩
  · exact (negative_N_invalid_argument_handling.1 (-1) 1 (by decide)).1
  · exact (negative_N_invalid_argument_handling.2.1 (-1) 1 1 1 (by decide)).1
  · exact (negative_N_invalid_argument_handling.2.2.2.1 _ _ _ _ _ (by decide)).1
  · exact (negative_N_invalid_argument_handling.2.2.2.2.1 _ _ _ _ _ (by decide)).1
  · exact (negative_N_invalid_argument_handling.2.2.2.2.2.1 _ _ _ _ _ _
      (by decide)).1
  · exact (negative_N_invalid_argument_handling.2.2.2.2.2.2 _ _ _ _ _
      (by decide)).1

/-- Witness for C3 at concrete shapes (`batch_count = 0` and `-1`). -/
theorem batch_count_zero_noop_negative_error_witness :
    (¬((2 : ℤ) < 0 ∨ (2 : ℤ) < 2 ∨ (2 : ℤ) < 1 ∨ (1 : ℤ) = 0)
        ∧ herBatchedStatus 2 1 2 0 = HipblasStatus.success
        ∧ herBatchedCall (fun _ _ _ _ _ _ A => A) PointerMode.host 5 5 true 2
            [[1], [2]] 1 2 [[3], [4]] 0 = (HipblasStatus.success, [[3], [4]]))
      ∧ ((-1 : ℤ) < 0 ∧ herBatchedStatus 2 1 2 (-1) = HipblasStatus.invalidValue)
      ∧ (testing_her_batched ⟨true, 2, 1, 2, 0, 5, true, true, true, 2, 3⟩
          (fun _ _ _ _ _ _ A => A) (fun _ _ _ _ _ A _ => A) [[1]] [[2]]).statusChecks
        = [(HipblasStatus.success, HipblasStatus.success)]
      ∧ (testing_her_batched ⟨true, 2, 1, 2, -1, 5, true, true, true, 2, 3⟩
          (fun _ _ _ _ _ _ A => A) (fun _ _ _ _ _ A _ => A) [[1]] [[2]]).statusChecks
        = [(HipblasStatus.invalidValue, HipblasStatus.invalidValue)] := by
  refine ⟨⟨by decide, ?_, ?_⟩, ⟨by decide, ?_⟩, ?_, ?_⟩
  · exact (batch_count_zero_noop_negative_error.1 2 1 2 (by decide)).1
  · exact (batch_count_zero_noop_negative_error.1 2 1 2 (by decide)).2
      (fun _ _ _ _ _ _ A => A) PointerMode.host 5 5 true [[1], [2]] [[3], [4]]
  · exact (batch_count_zero_noop_negative_error.2.1 2 1 2 (-1) (by decide)).1
  · exact batch_count_zero_noop_negative_error.2.2.2.1 _ _ _ _ _ (by decide) rfl
  · exact batch_count_zero_noop_negative_error.2.2.2.2 _ _ _ _ _ (by decide)

/-- Witness for C6 with a concrete two-element batch and a concrete
single-instance routine. -/
theorem batched_oracle_is_independent_per_batch_witness :
    ((1 : ℕ) ≤ 1 ∧ ReadsWithin (fun A B C j => A j + B j + C j) 1
        ∧ her2kGoldLoop (fun A B C j => A j + B j + C j) 1 1 1 1
            (fun _ => 3) (fun _ => 4) 2 (fun _ => 5) (1 * 1 + 0)
          = (fun A B C j => A j + B j + C j) (fun j' => (fun _ => (3 : ℤ)) (1 * 1 + j'))
              (fun j' => (fun _ => (4 : ℤ)) (1 * 1 + j'))
              (fun j' => (fun _ => (5 : ℤ)) (1 * 1 + j')) 0)
      ∧ ((2 : ℕ) ≤ 2
          ∧ (herGoldLoop (fun _ _ a x _ A _ => A ++ x ++ [a]) true 2 9 1 2
              [[1], [2]] 2 [[3], [4]]).getD 1 []
            = (fun _ _ a x _ A _ => A ++ x ++ [a]) true (2 : ℤ) (9 : ℤ)
                ([[1], [2]].getD 1 []) (1 : ℤ) ([[3], [4]].getD 1 []) (2 : ℤ)) := by
  have hg : ReadsWithin (fun A B C j => A j + B j + C j) 1 := by
    intro A B C C' h j hj
    simp only []
    rw [h j hj]
  refine ⟨⟨le_refl 1, hg, ?_⟩, ⟨le_refl 2, ?_⟩⟩
  · exact batched_oracle_is_independent_per_batch.1
      (fun A B C j => A j + B j + C j) 1 1 1 1 (fun _ => 3) (fun _ => 4)
      (fun _ => 5) 2 1 0 (le_refl 1) hg (by decide) (by decide)
  · exact batched_oracle_is_independent_per_batch.2
      (fun _ _ a x _ A _ => A ++ x ++ [a]) true 2 9 1 2 [[1], [2]] [[3], [4]]
      2 1 (by decide) (by decide)

/-- Witness for the amended C10 at concrete shapes (`N = 0`). -/
theorem N_zero_success_noop_witness :
    ((1 : ℤ) ≠ 0 ∧ (1 : ℤ) ≤ 1 ∧ (0 : ℤ) ≤ 1
        ∧ herBatchedStatus 0 1 1 1 = HipblasStatus.success)
      ∧ hprStatus 0 1 = HipblasStatus.success
      ∧ (testing_her_batched ⟨true, 0, 1, 1, 1, 5, true, true, true, 2, 3⟩
          (fun _ _ _ _ _ _ A => A) (fun _ _ _ _ _ A _ => A) [] []).statusChecks
        = [(HipblasStatus.success, HipblasStatus.success)]
      ∧ (testing_her_batched ⟨true, 0, 1, 1, 1, 5, true, true, true, 2, 3⟩
          (fun _ _ _ _ _ _ A => A) (fun _ _ _ _ _ A _ => A) [] []).earlyReturn = true
      ∧ (testing_hpr ⟨true, 0, 1, 5, true, true, true, 2, 3⟩
          (fun _ _ _ _ _ A => A) (fun _ _ _ _ _ A => A) [] []).statusChecks
        = [(HipblasStatus.success, HipblasStatus.success)]
      ∧ (testing_hpr ⟨true, 0, 1, 5, true, true, true, 2, 3⟩
          (fun _ _ _ _ _ A => A) (fun _ _ _ _ _ A => A) [] []).earlyReturn
        = true := by
  refine ⟨⟨by decide, by decide, by decide, ?_⟩, ?_, ?_, ?_, ?_, ?_⟩
  · exact (N_zero_success_noop.1 1 1 1 (by decide) (by decide) (by decide)).1
  · exact (N_zero_success_noop.2.1 1 (by decide)).1
  · exact (N_zero_success_noop.2.2.1 _ _ _ _ _ rfl (by decide) (by decide)
      (by decide)).1
  · exact (N_zero_success_noop.2.2.1 _ _ _ _ _ rfl (by decide) (by decide)
      (by decide)).2.2.1
  · exact (N_zero_success_noop.2.2.2 _ _ _ _ _ rfl (by decide)).1
  · exact (N_zero_success_noop.2.2.2 _ _ _ _ _ rfl (by decide)).2.1

/-- Sanity check of the hpr embedding on a concrete run: a kernel that adds
the scalar it reads to every packed entry produces the expected host-path
result field. -/
theorem testing_hpr_concrete_run :
    (testing_hpr ⟨true, 2, 1, 5, true, false, false, 0, 1⟩
      (fun _ _ a _ _ A => A.map (· + a)) (fun _ _ _ _ _ A => A)
      [1, 2, 3] [7, 8]).hA_host = some [6, 7, 8] := by decide
